import Mathlib

/-!
Verification of the validation, normalization, customer-reconciliation and
workflow logic of a multi-tenant vehicle-registration application
(src/app.py, src/models.py), as a shallow embedding.

Pure string helpers of the application are rendered as Lean functions on
strings and character lists.  The relational store is an explicit record of
customer rows and vehicle rows kept in insertion order, so that the
query-layer `.first()` is `List.find?` and SQL autoincrement ids are
explicit counters.  Each request handler becomes a function from the current
database and the submitted form data to a result value paired with the new
database.  Dates are represented by their day numbers (an `Int`), so that
date comparison and day arithmetic of the Python `date`/`timedelta` objects
are integer comparison and arithmetic; the `strptime` library call is
abstracted by carrying, next to the raw submitted text, the parse outcome
inside the form value.  Strings arriving from the HTTP form layer are plain
strings, with the empty string standing for an absent field (Python treats
`None` and `""` the same way in every truthiness test these handlers make).
-/

namespace VehReg

/-- Numeric value of an ASCII digit character, as in Python `int(ch)`. -/
def digitVal (c : Char) : Int := (c.toNat : Int) - 48

/-- Ascending scan of `is_sequential` (src/app.py line 65): every adjacent
pair of digits ascends by exactly one. -/
def ascRun : List Char → Bool
  | [] => true
  | [_] => true
  | a :: b :: rest => (digitVal b == digitVal a + 1) && ascRun (b :: rest)

/-- Descending scan of `is_sequential` (src/app.py line 68): every adjacent
pair of digits descends by exactly one. -/
def descRun : List Char → Bool
  | [] => true
  | [_] => true
  | a :: b :: rest => (digitVal b == digitVal a - 1) && descRun (b :: rest)

/-- Function `is_sequential` of src/app.py (lines 60-70): digit strings of
length below four are never sequential; otherwise the string is sequential
when it ascends by one throughout or descends by one throughout. -/
def is_sequential (digits : List Char) : Bool :=
  if digits.length < 4 then false
  else ascRun digits || descRun digits

/-- Digit characters kept by Python `re.sub(r'\D', '', phone)`. -/
def extractDigits (s : String) : List Char := s.toList.filter Char.isDigit

/-- Structural rendering of Python `s.split(sep)` for a one-character
separator, on character lists.  Splitting the empty string yields one empty
piece, and every separator occurrence opens a new piece, exactly as in
Python. -/
def splitOnChar (sep : Char) : List Char → List (List Char)
  | [] => [[]]
  | c :: rest =>
    let r := splitOnChar sep rest
    if c == sep then [] :: r
    else
      match r with
      | [] => [[c]]
      | h :: t => (c :: h) :: t

/-- Structural rendering of Python `s.lower()` (ASCII). -/
def pyLower (s : String) : String := String.mk (s.toList.map Char.toLower)

/-- Structural rendering of Python `s.strip()`: drop whitespace from both
ends. -/
def pyStrip (s : String) : String :=
  String.mk (((s.toList.dropWhile Char.isWhitespace).reverse.dropWhile Char.isWhitespace).reverse)

/-- Function `validate_phone` of src/app.py (lines 107-124). -/
def validate_phone (phone : String) : Option String :=
  let digits := extractDigits phone
  if digits.length < 7 ∨ digits.length > 15 then
    some "Phone number must be 7-15 digits."
  else if digits.dedup.length = 1 then
    some "Phone number cannot be all same digits."
  else if is_sequential digits then
    some "Phone number cannot be sequential digits."
  else if digits = "1234567890".toList ∨ digits = "0987654321".toList then
    some "Invalid phone number pattern."
  else
    none

/-- Character class of the local part of the email regex of src/app.py
line 73, ASCII ranges written out. -/
def emailLocalChar (c : Char) : Bool :=
  c.isAlpha || c.isDigit || c == '.' || c == '_' || c == '%' || c == '+' || c == '-'

/-- Character class of the domain part of the email regex. -/
def emailDomainChar (c : Char) : Bool :=
  c.isAlpha || c.isDigit || c == '.' || c == '-'

/-- Domain side of the anchored regex of src/app.py line 73, the part
matching `[a-zA-Z0-9.-]+` then a dot then at least two letters: every
character is drawn from the domain class, there is a dot, the label after
the last dot is alphabetic of length at least two, and the part before the
last dot is nonempty.  Splitting at the last dot is equivalent to the
backtracking search of the regex engine because the final label admits no
dot. -/
def emailDomainShape (cs : List Char) : Bool :=
  cs.all emailDomainChar &&
    (let rev := cs.reverse
     let tldRev := rev.takeWhile (fun c => c != '.')
     match rev.drop tldRev.length with
     | [] => false
     | _ :: body => !body.isEmpty && decide (2 ≤ tldRev.length) && tldRev.all Char.isAlpha)

/-- Whole-string match of the email regex of src/app.py line 73.  The
classes on both sides of `@` exclude `@` itself, so a match forces exactly
one `@`; splitting there mirrors the later `email.split('@')`. -/
def email_regex_match (email : String) : Bool :=
  match splitOnChar '@' email.toList with
  | [loc, domain] =>
      !loc.isEmpty && loc.all emailLocalChar && emailDomainShape domain
  | _ => false

/-- Denylist of src/app.py line 88. -/
def suspiciousEmails : List String :=
  ["test@test.com", "admin@admin.com", "user@user.com", "example@example.com"]

/-- Function `validate_email` of src/app.py (lines 72-105), branch for
branch; the `len(parts) != 2` re-check after a successful regex match is
kept even though the regex already forces exactly one `@`. -/
def validate_email (email : String) : Option String :=
  if !email_regex_match email then some "Invalid email format."
  else
    match splitOnChar '@' email.toList with
    | [loc, domain] =>
      if loc.length = 0 ∨ loc.length > 64 then some "Email username too long or empty."
      else if domain.length = 0 ∨ domain.length > 255 then some "Email domain too long or empty."
      else if (suspiciousEmails.map String.toList).contains (email.toList.map Char.toLower) then
        some "This email address is not allowed."
      else
        let clean_local := loc.filter (fun c => !(c == '.' || c == '_' || c == '-'))
        if clean_local.dedup.length ≤ 2 ∧ loc.length > 3 then some "Email username looks suspicious."
        else
          let domain_parts := splitOnChar '.' domain
          if domain_parts.length < 2 then some "Invalid domain format."
          else
            let tld := domain_parts.getLastD []
            if tld.length < 2 ∨ !(!tld.isEmpty && tld.all Char.isAlpha) then
              some "Invalid domain extension."
            else none
    | _ => some "Invalid email format."

/-- Identifier cleaning used throughout src/app.py:
`s.replace(" ", "").replace("-", "").upper()` removes every space and dash
character and upper-cases the rest (ASCII). -/
def normalize_id (s : String) : String :=
  String.mk ((s.toList.filter (fun c => !(c == ' ' || c == '-'))).map Char.toUpper)

/-- Upper-case ASCII letter, the class `[A-Z]`. -/
def isUpperAZ (c : Char) : Bool := decide ('A' ≤ c) && decide (c ≤ 'Z')

/-- Shape `^[A-Z]{2}[0-9]{2}[A-Z]{1,2}[0-9]{4}$` of src/app.py line 136: a
match has length nine (one middle letter) or ten (two middle letters);
backtracking admits no other split because the tail demands exactly four
digits then the end of the string. -/
def vehicleNoShape : List Char → Bool
  | [a, b, c, d, e, f, g, h, i] =>
      isUpperAZ a && isUpperAZ b && c.isDigit && d.isDigit &&
      isUpperAZ e && f.isDigit && g.isDigit && h.isDigit && i.isDigit
  | [a, b, c, d, e, f, g, h, i, j] =>
      isUpperAZ a && isUpperAZ b && c.isDigit && d.isDigit &&
      isUpperAZ e && isUpperAZ f && g.isDigit && h.isDigit && i.isDigit && j.isDigit
  | _ => false

/-- Function `validate_vehicle_number` of src/app.py (lines 126-141). -/
def validate_vehicle_number (vehicle_no : String) : Option String :=
  if vehicleNoShape (normalize_id vehicle_no).toList then none
  else some "Invalid Vehicle Number format"

/-! Data model (src/models.py). -/

/-- Row of the `customers` table. -/
structure Customer where
  id : Nat
  name : String
  email : String
  phone : String
deriving DecidableEq, Repr

/-- Row of the `vehicles` table.  `vehicle_no` is nullable. -/
structure Vehicle where
  id : Nat
  registration_number : String
  vehicle_no : Option String
  brand : String
  model : String
  issue_date : Int
  franchise_id : Nat
  owner_id : Nat
deriving DecidableEq, Repr

/-- Relational store: rows in insertion order plus autoincrement counters. -/
structure DB where
  customers : List Customer
  vehicles : List Vehicle
  next_customer_id : Nat
  next_vehicle_id : Nat
deriving DecidableEq, Repr

/-- Submitted issue-date form field.  `raw` is the text typed (empty for an
absent field); `parsed` is the outcome of the library call
`datetime.strptime(raw, "%Y-%m-%d")`, with the date given by its day number
and `none` recording a `ValueError`.  The parser itself is a library
routine and is not re-modelled. -/
structure DateField where
  raw : String
  parsed : Option Int
deriving DecidableEq, Repr

/-- Form data shared by the register and edit handlers. -/
structure RegForm where
  customer_name : String
  customer_email : String
  customer_phone : String
  registration_number : String
  vehicle_no : String
  brand : String
  model : String
  issue_date : DateField
deriving DecidableEq, Repr

/-! Query layer: each `Model.query.filter...first()` call of src/app.py. -/

def findCustomerById (db : DB) (cid : Nat) : Option Customer :=
  db.customers.find? (fun c => c.id == cid)

def findCustomerByEmail (db : DB) (e : String) : Option Customer :=
  db.customers.find? (fun c => c.email == e)

def findCustomerByPhone (db : DB) (p : String) : Option Customer :=
  db.customers.find? (fun c => c.phone == p)

/-- Customer lookup with an exact triple: name case-insensitively, email and
phone exactly (src/app.py lines 251-255 and 541-545). -/
def findCustomerExact (db : DB) (n e p : String) : Option Customer :=
  db.customers.find? (fun c => pyLower c.name == pyLower n && c.email == e && c.phone == p)

def findVehicleById (db : DB) (vid : Nat) : Option Vehicle :=
  db.vehicles.find? (fun v => v.id == vid)

def findVehicleByReg (db : DB) (r : String) : Option Vehicle :=
  db.vehicles.find? (fun v => v.registration_number == r)

def findVehicleByVehicleNo (db : DB) (n : String) : Option Vehicle :=
  db.vehicles.find? (fun v => v.vehicle_no == some n)

/-- Email lookup excluding one customer id (src/app.py lines 485-488). -/
def findOtherCustomerByEmail (db : DB) (e : String) (excl : Nat) : Option Customer :=
  db.customers.find? (fun c => c.email == e && c.id != excl)

/-- Phone lookup excluding one customer id (src/app.py lines 493-496). -/
def findOtherCustomerByPhone (db : DB) (p : String) (excl : Nat) : Option Customer :=
  db.customers.find? (fun c => c.phone == p && c.id != excl)

/-- In-place update of the first row satisfying a predicate, the effect of
mutating the single ORM object returned by a `first()` query. -/
def updateFirst {α : Type} (p : α → Bool) (f : α → α) : List α → List α
  | [] => []
  | x :: rest => if p x then f x :: rest else x :: updateFirst p f rest

/-- Deletion of the first row satisfying a predicate, the effect of
`db.session.delete` on the object returned by a primary-key query. -/
def removeFirst {α : Type} (p : α → Bool) : List α → List α
  | [] => []
  | x :: rest => if p x then rest else x :: removeFirst p rest

/-! Validation rules of the register handler (src/app.py lines 167-231).
Each rule yields its own list of collected messages; the handler reports
their concatenation, in source order. -/

/-- Required-fields rule (src/app.py line 170). -/
def requiredErrors (f : RegForm) : List String :=
  if f.customer_name ≠ "" ∧ f.customer_email ≠ "" ∧ f.customer_phone ≠ "" ∧
     f.registration_number ≠ "" ∧ f.brand ≠ "" ∧ f.model ≠ "" ∧ f.issue_date.raw ≠ ""
  then [] else ["All required fields must be filled"]

/-- Email rule (src/app.py line 173): checked only when the field is
nonempty. -/
def emailErrors (f : RegForm) : List String :=
  if f.customer_email ≠ "" then (validate_email f.customer_email).toList else []

/-- Phone rule (src/app.py line 179). -/
def phoneErrors (f : RegForm) : List String :=
  if f.customer_phone ≠ "" then (validate_phone f.customer_phone).toList else []

/-- Registration-number duplicate rule of the register handler (src/app.py
lines 185-190): the normalized value is looked up among stored rows. -/
def regNoErrors (db : DB) (f : RegForm) : List String :=
  if f.registration_number ≠ "" then
    if (findVehicleByReg db (normalize_id f.registration_number)).isSome then
      ["Registration Number already exists!"]
    else []
  else []

/-- Vehicle-number rule of the register handler (src/app.py lines 192-203):
run only when the field is nonempty after stripping; duplicates are checked
only when the format is valid, against the normalized value. -/
def vehicleNoErrors (db : DB) (f : RegForm) : List String :=
  if pyStrip f.vehicle_no ≠ "" then
    match validate_vehicle_number f.vehicle_no with
    | some e => [e]
    | none =>
      if (findVehicleByVehicleNo db (normalize_id f.vehicle_no)).isSome then
        ["Vehicle number already exists!"]
      else []
  else []

/-- Issue-date rule of the register handler (src/app.py lines 205-219). -/
def dateErrors (today : Int) (f : RegForm) : List String :=
  if f.issue_date.raw ≠ "" then
    match f.issue_date.parsed with
    | none => ["Invalid issue date format"]
    | some d =>
      (if d > today then ["Issue date cannot be in the future!"] else []) ++
      (if d < today - 7300 then ["Issue date cannot be more than 20 years old!"] else [])
  else []

/-- Identity-consistency pre-check of the register handler (src/app.py
lines 221-231): the first stored customer with the submitted email, and the
first with the submitted phone, must not carry a different name. -/
def identityErrors (db : DB) (f : RegForm) : List String :=
  if f.customer_email ≠ "" ∧ f.customer_phone ≠ "" ∧ f.customer_name ≠ "" then
    (match findCustomerByEmail db f.customer_email with
     | some c =>
       if pyLower c.name ≠ pyLower f.customer_name then
         ["Check the details properly - Email is registered with a different name"]
       else []
     | none => []) ++
    (match findCustomerByPhone db f.customer_phone with
     | some c =>
       if pyLower c.name ≠ pyLower f.customer_name then
         ["Check the details properly - Phone is registered with a different name"]
       else []
     | none => [])
  else []

/-- All messages collected by the register handler, in source order. -/
def registerErrors (today : Int) (db : DB) (f : RegForm) : List String :=
  requiredErrors f ++ emailErrors f ++ phoneErrors f ++ regNoErrors db f ++
  vehicleNoErrors db f ++ dateErrors today f ++ identityErrors db f

/-- Stored form of the optional vehicle number (src/app.py lines 269 and
572): the stripped raw text when nonempty, else NULL. -/
def cleanVehicleNoStored (s : String) : Option String :=
  if pyStrip s ≠ "" then some (pyStrip s) else none

/-- Write phase of the register handler (src/app.py lines 250-281): reuse
an exactly matching customer or insert a new one, then insert the vehicle
with the cleaned registration number and the stored vehicle number. -/
def registerCommit (fid : Nat) (db : DB) (f : RegForm) : DB :=
  let r : Nat × DB :=
    match findCustomerExact db f.customer_name f.customer_email f.customer_phone with
    | some c => (c.id, db)
    | none =>
      (db.next_customer_id,
       { db with
           customers := db.customers ++
             [{ id := db.next_customer_id, name := f.customer_name,
                email := f.customer_email, phone := f.customer_phone }],
           next_customer_id := db.next_customer_id + 1 })
  let v : Vehicle :=
    { id := r.2.next_vehicle_id
      registration_number := normalize_id f.registration_number
      vehicle_no := cleanVehicleNoStored f.vehicle_no
      brand := f.brand
      model := f.model
      issue_date := f.issue_date.parsed.getD 0
      franchise_id := fid
      owner_id := r.1 }
  { r.2 with vehicles := r.2.vehicles ++ [v], next_vehicle_id := r.2.next_vehicle_id + 1 }

/-- Outcome of a register request. -/
inductive RegResult where
  | rejected (errors : List String) (echoed : RegForm)
  | success
deriving DecidableEq, Repr

/-- POST branch of `register_vehicle` (src/app.py lines 144-284) for a
logged-in franchise: collect every validation message; when any is present
report them all together with the submitted values echoed back and leave
the store untouched, otherwise run the write phase. -/
def register_vehicle (today : Int) (fid : Nat) (db : DB) (f : RegForm) : RegResult × DB :=
  let errors := registerErrors today db f
  if errors = [] then (.success, registerCommit fid db f)
  else (.rejected errors f, db)

/-! Validation rules of the edit handler (src/app.py lines 440-514); the
order of the blocks, and two message texts, differ from the register
handler. -/

/-- Vehicle-number rule of the edit handler (src/app.py lines 458-470):
the duplicate lookup runs only when the normalized value differs from the
stored one. -/
def editVehicleNoErrors (db : DB) (veh : Vehicle) (f : RegForm) : List String :=
  if pyStrip f.vehicle_no ≠ "" then
    match validate_vehicle_number f.vehicle_no with
    | some e => [e]
    | none =>
      if some (normalize_id f.vehicle_no) ≠ veh.vehicle_no then
        if (findVehicleByVehicleNo db (normalize_id f.vehicle_no)).isSome then
          ["Vehicle number already exists!"]
        else []
      else []
  else []

/-- Registration-number rule of the edit handler (src/app.py lines
472-480): checked only when the normalized value changes. -/
def editRegNoErrors (db : DB) (veh : Vehicle) (f : RegForm) : List String :=
  if f.registration_number ≠ "" then
    if normalize_id f.registration_number ≠ veh.registration_number then
      if (findVehicleByReg db (normalize_id f.registration_number)).isSome then
        ["Registration Number already exists!"]
      else []
    else []
  else []

/-- Identity pre-check of the edit handler (src/app.py lines 482-498),
excluding the vehicle's current owner from both lookups. -/
def editIdentityErrors (db : DB) (veh : Vehicle) (f : RegForm) : List String :=
  if f.customer_email ≠ "" ∧ f.customer_phone ≠ "" ∧ f.customer_name ≠ "" then
    (match findOtherCustomerByEmail db f.customer_email veh.owner_id with
     | some c =>
       if pyLower c.name ≠ pyLower f.customer_name then
         ["Check the details properly - Email is registered with a different name"]
       else []
     | none => []) ++
    (match findOtherCustomerByPhone db f.customer_phone veh.owner_id with
     | some c =>
       if pyLower c.name ≠ pyLower f.customer_name then
         ["Check the details properly - Phone is registered with a different name"]
       else []
     | none => [])
  else []

/-- Issue-date rule of the edit handler (src/app.py lines 500-514); its
parse-failure message ends in an exclamation mark, unlike the register
handler's. -/
def editDateErrors (today : Int) (f : RegForm) : List String :=
  if f.issue_date.raw ≠ "" then
    match f.issue_date.parsed with
    | none => ["Invalid issue date format!"]
    | some d =>
      (if d > today then ["Issue date cannot be in the future!"] else []) ++
      (if d < today - 7300 then ["Issue date cannot be more than 20 years old!"] else [])
  else []

/-- All messages collected by the edit handler, in source order. -/
def editErrors (today : Int) (db : DB) (veh : Vehicle) (f : RegForm) : List String :=
  requiredErrors f ++ emailErrors f ++ phoneErrors f ++ editVehicleNoErrors db veh f ++
  editRegNoErrors db veh f ++ editIdentityErrors db veh f ++ editDateErrors today f

/-- Test of src/app.py lines 533-537: the submitted triple differs from the
current owner's, name compared case-insensitively. -/
def customerChanged (c : Customer) (f : RegForm) : Bool :=
  pyLower c.name != pyLower f.customer_name ||
  c.email != f.customer_email ||
  c.phone != f.customer_phone

/-- Count of vehicles owned by a customer (src/app.py line 552). -/
def countOwned (db : DB) (cid : Nat) : Nat :=
  (db.vehicles.filter (fun v => v.owner_id == cid)).length

/-- Three-way reconciliation of the edit handler (src/app.py lines
539-568), entered when the triple changed: attach an exactly matching
customer, else rename the old customer in place when this is its only
vehicle, else insert a brand-new customer.  Returns the owner id for the
edited vehicle together with the updated customer table. -/
def editReconcile (db : DB) (old_customer : Customer) (f : RegForm) : Nat × DB :=
  match findCustomerExact db f.customer_name f.customer_email f.customer_phone with
  | some existing => (existing.id, db)
  | none =>
    if countOwned db old_customer.id = 1 then
      (old_customer.id,
       { db with customers :=
           (updateFirst (fun c => c.id == old_customer.id)
             (fun c => { c with name := f.customer_name, email := f.customer_email,
                                phone := f.customer_phone })
             db.customers) })
    else
      (db.next_customer_id,
       { db with
           customers := db.customers ++
             [{ id := db.next_customer_id, name := f.customer_name,
                email := f.customer_email, phone := f.customer_phone }],
           next_customer_id := db.next_customer_id + 1 })

/-- Field updates written to the edited vehicle row (src/app.py lines
570-579), with the owner id produced by the reconciliation. -/
def applyVehicleFields (v : Vehicle) (f : RegForm) (oid : Nat) : Vehicle :=
  { v with registration_number := normalize_id f.registration_number
           vehicle_no := cleanVehicleNoStored f.vehicle_no
           brand := f.brand
           model := f.model
           issue_date := f.issue_date.parsed.getD 0
           owner_id := oid }

/-- Outcome of an edit request.  `ownerMissing` covers the state, impossible
under the foreign-key constraint, in which the vehicle's owner row is
absent. -/
inductive EditResult where
  | notLoggedIn
  | notFound
  | noPermission
  | ownerMissing
  | rejected (errors : List String) (echoed : RegForm)
  | success
deriving DecidableEq, Repr

/-- POST branch of `edit_vehicle` (src/app.py lines 411-589): session gate,
vehicle lookup, franchise-ownership gate, exhaustive validation, then
reconciliation and the row update. -/
def edit_vehicle (today : Int) (sess : Option Nat) (vid : Nat) (db : DB) (f : RegForm) :
    EditResult × DB :=
  match sess with
  | none => (.notLoggedIn, db)
  | some fid =>
    match findVehicleById db vid with
    | none => (.notFound, db)
    | some vehicle =>
      if vehicle.franchise_id ≠ fid then (.noPermission, db)
      else
        let errors := editErrors today db vehicle f
        if errors = [] then
          match findCustomerById db vehicle.owner_id with
          | none => (.ownerMissing, db)
          | some old_customer =>
            let r : Nat × DB :=
              if customerChanged old_customer f then editReconcile db old_customer f
              else (vehicle.owner_id, db)
            (.success,
             { r.2 with vehicles :=
                 (updateFirst (fun w => w.id == vid)
                   (fun _ => applyVehicleFields vehicle f r.1) r.2.vehicles) })
        else (.rejected errors f, db)

/-- Outcome of a delete request. -/
inductive DelResult where
  | notLoggedIn
  | notFound
  | noPermission
  | success
deriving DecidableEq, Repr

/-- Handler `delete_vehicle` (src/app.py lines 639-668): session gate,
vehicle lookup, franchise-ownership gate, then row deletion. -/
def delete_vehicle (sess : Option Nat) (vid : Nat) (db : DB) : DelResult × DB :=
  match sess with
  | none => (.notLoggedIn, db)
  | some fid =>
    match findVehicleById db vid with
    | none => (.notFound, db)
    | some vehicle =>
      if vehicle.franchise_id ≠ fid then (.noPermission, db)
      else (.success, { db with vehicles := removeFirst (fun w => w.id == vid) db.vehicles })

/-- Outcome of the customer self-service lookup. -/
inductive LookupResult where
  | missingFields
  | failed (errors : List String)
  | ownerMismatch
  | found (v : Vehicle)
deriving DecidableEq, Repr

/-- POST branch of `customer_lookup` (src/app.py lines 593-636): both
fields required; the vehicle is looked up by the submitted registration
number and the customer by the submitted phone, each by exact string
equality; both must exist and the customer must be the vehicle's owner. -/
def customer_lookup (db : DB) (registration_number phone : String) : LookupResult :=
  if registration_number = "" ∨ phone = "" then .missingFields
  else
    let vehicle := findVehicleByReg db registration_number
    let customer := findCustomerByPhone db phone
    let errs :=
      (if vehicle.isNone then ["Registration Number does not exist"] else []) ++
      (if customer.isNone then ["Registered Phone does not exist"] else [])
    if errs = [] then
      match vehicle, customer with
      | some v, some c => if v.owner_id ≠ c.id then .ownerMismatch else .found v
      | _, _ => .failed errs
    else .failed errs

/-! Concrete stores and forms used by witnesses and counterexamples. -/

/-- Empty store with fresh autoincrement counters. -/
def dbEmpty : DB := ⟨[], [], 1, 1⟩

/-- Valid registration form whose optional vehicle number is typed with
spaces, a dash and lower-case letters. -/
def formC1 : RegForm :=
  { customer_name := "Alice", customer_email := "alice@example.com",
    customer_phone := "5550123", registration_number := "KA01AB1234",
    vehicle_no := "ts 07-uc-4455", brand := "Honda", model := "Civic",
    issue_date := ⟨"2023-10-12", some 738805⟩ }

/-- Second registration: fresh registration number, and a vehicle number
that is exactly the normalized form of the first one. -/
def formC1b : RegForm :=
  { formC1 with registration_number := "MH02CD5678", vehicle_no := "TS07UC4455" }

/-- Completely blank submission. -/
def formBlank : RegForm :=
  { customer_name := "", customer_email := "", customer_phone := "",
    registration_number := "", vehicle_no := "", brand := "", model := "",
    issue_date := ⟨"", none⟩ }

/-- Store with two customers who share an email under different names; the
earlier row carries the very name that `formShared` submits. -/
def dbShared : DB :=
  { customers := [{ id := 1, name := "Alice", email := "shared@mail.com", phone := "5550001" },
                  { id := 2, name := "Bob", email := "shared@mail.com", phone := "5550002" }],
    vehicles := [{ id := 1, registration_number := "KA01AB1234", vehicle_no := none,
                   brand := "Honda", model := "Civic", issue_date := 738805,
                   franchise_id := 7, owner_id := 1 },
                 { id := 2, registration_number := "TN10XY9999", vehicle_no := none,
                   brand := "Tata", model := "Nexon", issue_date := 738805,
                   franchise_id := 7, owner_id := 2 }],
    next_customer_id := 3, next_vehicle_id := 3 }

/-- Registration against `dbShared` reusing the shared email under the name
of the earlier row. -/
def formShared : RegForm :=
  { customer_name := "Alice", customer_email := "shared@mail.com",
    customer_phone := "5550003", registration_number := "MH02CD5678",
    vehicle_no := "", brand := "Honda", model := "City",
    issue_date := ⟨"2023-10-12", some 738805⟩ }

/-- Same registration under a name matching no stored row. -/
def formSharedCarol : RegForm := { formShared with customer_name := "Carol" }

/-- Second registration whose registration number normalizes to that of
`formC1`. -/
def formC6b : RegForm :=
  { formC1 with registration_number := "ka 01 ab 1234", vehicle_no := "" }

/-- Issue date one day after the reference day 738805. -/
def formC7a : RegForm :=
  { formC1 with vehicle_no := "", issue_date := ⟨"2023-10-13", some 738806⟩ }

/-- Issue date 7301 days before the reference day. -/
def formC7b : RegForm :=
  { formC1 with vehicle_no := "", issue_date := ⟨"2003-10-15", some 731504⟩ }

/-- Issue date exactly 7300 days before the reference day. -/
def formC7c : RegForm :=
  { formC1 with vehicle_no := "", issue_date := ⟨"2003-10-16", some 731505⟩ }

/-- Single stored customer row. -/
def cW2 : Customer :=
  { id := 1, name := "Alice", email := "alice@example.com", phone := "5550123" }

/-- Single stored vehicle row, owned by `cW2` under franchise 7. -/
def vW2 : Vehicle :=
  { id := 1, registration_number := "KA01AB1234", vehicle_no := none,
    brand := "Honda", model := "Civic", issue_date := 738805,
    franchise_id := 7, owner_id := 1 }

/-- Store holding exactly `cW2` and `vW2`. -/
def dbW2 : DB := { customers := [cW2], vehicles := [vW2], next_customer_id := 2, next_vehicle_id := 2 }

/-- Edit submission renaming the owner of `vW2` to a brand-new triple. -/
def fW2 : RegForm :=
  { customer_name := "Bob", customer_email := "bob@example.com",
    customer_phone := "5550124", registration_number := "KA01AB1234",
    vehicle_no := "", brand := "Honda", model := "Civic",
    issue_date := ⟨"2023-10-12", some 738805⟩ }

/-! Helper lemmas shared by the claim theorems. -/

lemma register_rejected_of_errors (today : Int) (fid : Nat) (db : DB) (f : RegForm)
    (h : registerErrors today db f ≠ []) :
    register_vehicle today fid db f = (.rejected (registerErrors today db f) f, db) := by
  simp [register_vehicle, h]

lemma register_success_of_no_errors (today : Int) (fid : Nat) (db : DB) (f : RegForm)
    (h : registerErrors today db f = []) :
    register_vehicle today fid db f = (.success, registerCommit fid db f) := by
  simp [register_vehicle, h]

lemma find?_isSome_of_mem {α : Type} {p : α → Bool} {l : List α} {x : α}
    (hx : x ∈ l) (hp : p x = true) : (l.find? p).isSome :=
  List.find?_isSome.mpr ⟨x, hx, hp⟩

lemma mem_updateFirst_of_ne {α : Type} (p : α → Bool) (f : α → α) (l : List α) (x y : α)
    (hx : x ∈ l) (hf : l.find? p = some y) (hxy : x ≠ y) : x ∈ updateFirst p f l := by
  induction l with
  | nil => cases hx
  | cons a rest ih =>
    show x ∈ (if p a then f a :: rest else a :: updateFirst p f rest)
    by_cases hp : p a
    · rw [List.find?_cons_of_pos _ hp] at hf
      injection hf with h1
      subst h1
      rw [if_pos hp]
      rcases List.mem_cons.mp hx with h | h
      · exact absurd h hxy
      · exact List.mem_cons_of_mem _ h
    · rw [List.find?_cons_of_neg _ hp] at hf
      rw [if_neg hp]
      rcases List.mem_cons.mp hx with h | h
      · exact h ▸ List.mem_cons_self _ _
      · exact List.mem_cons_of_mem _ (ih h hf)

lemma mem_removeFirst_of_ne {α : Type} (p : α → Bool) (l : List α) (x y : α)
    (hx : x ∈ l) (hf : l.find? p = some y) (hxy : x ≠ y) : x ∈ removeFirst p l := by
  induction l with
  | nil => cases hx
  | cons a rest ih =>
    show x ∈ (if p a then rest else a :: removeFirst p rest)
    by_cases hp : p a
    · rw [List.find?_cons_of_pos _ hp] at hf
      injection hf with h1
      subst h1
      rw [if_pos hp]
      rcases List.mem_cons.mp hx with h | h
      · exact absurd h hxy
      · exact h
    · rw [List.find?_cons_of_neg _ hp] at hf
      rw [if_neg hp]
      rcases List.mem_cons.mp hx with h | h
      · exact h ▸ List.mem_cons_self _ _
      · exact List.mem_cons_of_mem _ (ih h hf)

lemma edit_vehicle_rejected_eq (today : Int) (fid vid : Nat) (db : DB) (f : RegForm) (v : Vehicle)
    (hv : findVehicleById db vid = some v) (hfr : v.franchise_id = fid)
    (herr : editErrors today db v f ≠ []) :
    edit_vehicle today (some fid) vid db f = (.rejected (editErrors today db v f) f, db) := by
  simp only [edit_vehicle]
  rw [hv]
  simp [hfr, herr]

lemma edit_vehicle_success_eq (today : Int) (fid vid : Nat) (db : DB) (f : RegForm)
    (v : Vehicle) (oc : Customer)
    (hv : findVehicleById db vid = some v) (hfr : v.franchise_id = fid)
    (herr : editErrors today db v f = []) (hc : findCustomerById db v.owner_id = some oc) :
    edit_vehicle today (some fid) vid db f =
      (let r := if customerChanged oc f then editReconcile db oc f else (v.owner_id, db)
       (EditResult.success,
        { r.2 with vehicles :=
            (updateFirst (fun w => w.id == vid)
              (fun _ => applyVehicleFields v f r.1) r.2.vehicles) })) := by
  simp only [edit_vehicle]
  rw [hv]
  simp [hfr, herr, hc]

lemma editReconcile_vehicles_eq (db : DB) (oc : Customer) (f : RegForm) :
    (editReconcile db oc f).2.vehicles = db.vehicles := by
  unfold editReconcile
  cases hx : findCustomerExact db f.customer_name f.customer_email f.customer_phone
  · dsimp only
    split <;> rfl
  · rfl

lemma registerCommit_vehicles (fid : Nat) (db : DB) (f : RegForm) :
    ∃ w, (registerCommit fid db f).vehicles = db.vehicles ++ [w] ∧
         w.registration_number = normalize_id f.registration_number := by
  unfold registerCommit
  cases hx : findCustomerExact db f.customer_name f.customer_email f.customer_phone
  · exact ⟨_, rfl, rfl⟩
  · exact ⟨_, rfl, rfl⟩

lemma dateErrors_boundary_ok (today : Int) (f : RegForm)
    (h : f.issue_date.parsed = some (today - 7300)) : dateErrors today f = [] := by
  unfold dateErrors
  by_cases hr : f.issue_date.raw = ""
  · rw [if_neg (by simp [hr])]
  · rw [if_pos hr, h]
    have h1 : ¬ (today - 7300 > today) := by omega
    have h2 : ¬ (today - 7300 < today - 7300) := by omega
    simp [h1, h2]

lemma edit_vehicle_noPermission_eq (today : Int) (fid vid : Nat) (db : DB) (f : RegForm)
    (v : Vehicle) (hv : findVehicleById db vid = some v) (hne : v.franchise_id ≠ fid) :
    edit_vehicle today (some fid) vid db f = (.noPermission, db) := by
  simp only [edit_vehicle]
  rw [hv]
  simp [hne]

lemma delete_vehicle_noPermission_eq (fid vid : Nat) (db : DB)
    (v : Vehicle) (hv : findVehicleById db vid = some v) (hne : v.franchise_id ≠ fid) :
    delete_vehicle (some fid) vid db = (.noPermission, db) := by
  simp only [delete_vehicle]
  rw [hv]
  simp [hne]

lemma edit_vehicle_preserves_other_franchise (today : Int) (fid vid : Nat) (db : DB)
    (f : RegForm) (w : Vehicle) (hw : w ∈ db.vehicles) (hwf : w.franchise_id ≠ fid) :
    w ∈ (edit_vehicle today (some fid) vid db f).2.vehicles := by
  cases hv : findVehicleById db vid with
  | none =>
    have hstep : edit_vehicle today (some fid) vid db f = (.notFound, db) := by
      simp [edit_vehicle, hv]
    rw [hstep]
    exact hw
  | some v =>
    by_cases hfr : v.franchise_id = fid
    · by_cases herr : editErrors today db v f = []
      · cases hc : findCustomerById db v.owner_id with
        | none =>
          have hstep : edit_vehicle today (some fid) vid db f = (.ownerMissing, db) := by
            simp only [edit_vehicle]
            rw [hv]
            simp [hfr, herr, hc]
          rw [hstep]
          exact hw
        | some oc =>
          have hwv : w ≠ v := by
            intro heq
            apply hwf
            rw [heq]
            exact hfr
          have hbase := edit_vehicle_success_eq today fid vid db f v oc hv hfr herr hc
          rw [hbase]
          by_cases hch : customerChanged oc f
          · rw [if_pos hch]
            simp only [editReconcile_vehicles_eq]
            exact mem_updateFirst_of_ne _ _ _ _ v hw hv hwv
          · rw [if_neg hch]
            exact mem_updateFirst_of_ne _ _ _ _ v hw hv hwv
      · rw [edit_vehicle_rejected_eq today fid vid db f v hv hfr herr]
        exact hw
    · rw [edit_vehicle_noPermission_eq today fid vid db f v hv hfr]
      exact hw

lemma delete_vehicle_preserves_other_franchise (fid vid : Nat) (db : DB)
    (w : Vehicle) (hw : w ∈ db.vehicles) (hwf : w.franchise_id ≠ fid) :
    w ∈ (delete_vehicle (some fid) vid db).2.vehicles := by
  cases hv : findVehicleById db vid with
  | none =>
    have hstep : delete_vehicle (some fid) vid db = (.notFound, db) := by
      simp [delete_vehicle, hv]
    rw [hstep]
    exact hw
  | some v =>
    by_cases hfr : v.franchise_id = fid
    · have hwv : w ≠ v := by
        intro heq
        apply hwf
        rw [heq]
        exact hfr
      have hstep : delete_vehicle (some fid) vid db =
          (.success, { db with vehicles := removeFirst (fun x => x.id == vid) db.vehicles }) := by
        simp only [delete_vehicle]
        rw [hv]
        simp [hfr]
      rw [hstep]
      exact mem_removeFirst_of_ne _ _ _ v hw hv hwv
    · rw [delete_vehicle_noPermission_eq fid vid db v hv hfr]
      exact hw

lemma register_vehicle_preserves_vehicles (today : Int) (fid : Nat) (db : DB) (f : RegForm)
    (w : Vehicle) (hw : w ∈ db.vehicles) :
    w ∈ (register_vehicle today fid db f).2.vehicles := by
  by_cases herr : registerErrors today db f = []
  · rw [register_success_of_no_errors today fid db f herr]
    obtain ⟨x, hx1, -⟩ := registerCommit_vehicles fid db f
    show w ∈ (registerCommit fid db f).vehicles
    rw [hx1]
    exact List.mem_append_left _ hw
  · rw [register_rejected_of_errors today fid db f herr]
    exact hw

lemma ascRun_iff_chain (l : List Char) :
    ascRun l = true ↔ List.Chain' (fun a b => digitVal b = digitVal a + 1) l := by
  induction l with
  | nil => simp [ascRun]
  | cons a rest ih =>
    cases rest with
    | nil => simp [ascRun]
    | cons b rest2 =>
      rw [show ascRun (a :: b :: rest2) =
            ((digitVal b == digitVal a + 1) && ascRun (b :: rest2)) from rfl]
      rw [List.chain'_cons, Bool.and_eq_true, beq_iff_eq]
      exact and_congr Iff.rfl ih

lemma descRun_iff_chain (l : List Char) :
    descRun l = true ↔ List.Chain' (fun a b => digitVal b = digitVal a - 1) l := by
  induction l with
  | nil => simp [descRun]
  | cons a rest ih =>
    cases rest with
    | nil => simp [descRun]
    | cons b rest2 =>
      rw [show descRun (a :: b :: rest2) =
            ((digitVal b == digitVal a - 1) && descRun (b :: rest2)) from rfl]
      rw [List.chain'_cons, Bool.and_eq_true, beq_iff_eq]
      exact and_congr Iff.rfl ih

/-! Claim theorems. -/

/-- C1: the claim says a persisted nonblank `vehicle_no` is stored
normalized (upper-case, spaces and dashes removed) and globally unique.
The code is a slip against this: `register_vehicle` validates and
duplicate-checks the normalized value but then stores only the stripped raw
text (src/app.py line 269, likewise line 572 in the edit handler), so the
value "ts 07-uc-4455" is persisted verbatim, and a second registration
whose vehicle number normalizes identically is accepted, defeating the
uniqueness lookup that queries by the normalized form. -/
theorem c1_vehicle_no_stored_unnormalized :
    normalize_id "ts 07-uc-4455" = "TS07UC4455" ∧
    validate_vehicle_number "ts 07-uc-4455" = none ∧
    (register_vehicle 738805 7 dbEmpty formC1).1 = RegResult.success ∧
    (register_vehicle 738805 7 dbEmpty formC1).2.vehicles.map Vehicle.vehicle_no =
      [some "ts 07-uc-4455"] ∧
    (register_vehicle 738805 7 ((register_vehicle 738805 7 dbEmpty formC1).2) formC1b).1 =
      RegResult.success ∧
    (register_vehicle 738805 7 ((register_vehicle 738805 7 dbEmpty formC1).2) formC1b).2.vehicles.map
        Vehicle.vehicle_no = [some "ts 07-uc-4455", some "TS07UC4455"] := by
  refine ⟨rfl, by decide, by decide, by decide, by decide, by decide⟩

/-- C3, counterexample: the claim asserts `is_sequential` already returns
true on the two hardcoded literal phone patterns; it returns false on both,
because the step from digit 9 to digit 0 (and 0 to 9) is not a step of one. -/
theorem c3_counterexample :
    ¬ (is_sequential ("1234567890".toList) = true ∧
       is_sequential ("0987654321".toList) = true) := by decide

/-- C3, amended: the two literal patterns are not redundant with the
sequential-digit check.  `is_sequential` returns false on both digit
strings, every earlier rule of `validate_phone` passes on them (ten digits,
more than one distinct digit), and it is the literal-match branch alone
that rejects them. -/
theorem c3_literal_patterns_not_redundant :
    is_sequential ("1234567890".toList) = false ∧
    is_sequential ("0987654321".toList) = false ∧
    (extractDigits "1234567890").length = 10 ∧
    (extractDigits "1234567890").dedup.length ≠ 1 ∧
    (extractDigits "0987654321").dedup.length ≠ 1 ∧
    validate_phone "1234567890" = some "Invalid phone number pattern." ∧
    validate_phone "0987654321" = some "Invalid phone number pattern." := by decide

/-- C8: `is_sequential` returns true on "1234" and "4321", false on "1235",
false on every digit string shorter than four characters, and in general
decides, on digit values, whether every adjacent pair steps by exactly plus
one throughout or by exactly minus one throughout. -/
theorem c8_is_sequential_spec :
    is_sequential ("1234".toList) = true ∧
    is_sequential ("4321".toList) = true ∧
    is_sequential ("1235".toList) = false ∧
    is_sequential ("12".toList) = false ∧
    (∀ ds : List Char, ds.length < 4 → is_sequential ds = false) ∧
    (∀ ds : List Char,
       is_sequential ds = true ↔
         4 ≤ ds.length ∧
           (List.Chain' (fun a b => digitVal b = digitVal a + 1) ds ∨
            List.Chain' (fun a b => digitVal b = digitVal a - 1) ds)) := by
  refine ⟨by decide, by decide, by decide, by decide, ?_, ?_⟩
  · intro ds h
    simp only [is_sequential]
    rw [if_pos h]
  · intro ds
    simp only [is_sequential]
    by_cases h : ds.length < 4
    · rw [if_pos h]
      constructor
      · intro hfalse
        cases hfalse
      · rintro ⟨hle, -⟩
        omega
    · rw [if_neg h]
      rw [Bool.or_eq_true, ascRun_iff_chain, descRun_iff_chain]
      constructor
      · intro hor
        exact ⟨by omega, hor⟩
      · rintro ⟨-, hor⟩
        exact hor

/-- C8, witness: the universally quantified parts of the statement applied
at the concrete input "12". -/
theorem c8_is_sequential_spec_witness :
    ("12".toList).length < 4 ∧ is_sequential ("12".toList) = false :=
  ⟨by decide, c8_is_sequential_spec.2.2.2.2.1 ("12".toList) (by decide)⟩

/-- C2: on an edit whose submitted owner triple differs from the current
owner's, the handler succeeds and: with an exactly matching stored customer,
only the edited vehicle row is repointed to it and the customer table is
untouched; with no exact match and the old customer owning exactly one
vehicle, the old customer row is renamed in place and the vehicle keeps its
owner id; with no exact match and the old customer owning several vehicles,
a brand-new customer row is appended, only the edited vehicle row is
repointed to the fresh id, and the old customer row survives unchanged. -/
theorem c2_edit_reconciliation
    (today : Int) (fid vid : Nat) (db : DB) (f : RegForm) (v : Vehicle) (c : Customer)
    (hv : findVehicleById db vid = some v)
    (hfr : v.franchise_id = fid)
    (herr : editErrors today db v f = [])
    (hc : findCustomerById db v.owner_id = some c)
    (hch : customerChanged c f = true) :
    (edit_vehicle today (some fid) vid db f).1 = EditResult.success ∧
    (∀ ec : Customer,
       findCustomerExact db f.customer_name f.customer_email f.customer_phone = some ec →
       edit_vehicle today (some fid) vid db f =
         (EditResult.success,
          { db with vehicles :=
              (updateFirst (fun w => w.id == vid)
                (fun _ => applyVehicleFields v f ec.id) db.vehicles) })) ∧
    (findCustomerExact db f.customer_name f.customer_email f.customer_phone = none →
     countOwned db v.owner_id = 1 →
       edit_vehicle today (some fid) vid db f =
         (EditResult.success,
          { db with
              customers :=
                (updateFirst (fun x => x.id == c.id)
                  (fun x => { x with name := f.customer_name, email := f.customer_email,
                                     phone := f.customer_phone }) db.customers),
              vehicles :=
                (updateFirst (fun w => w.id == vid)
                  (fun _ => applyVehicleFields v f v.owner_id) db.vehicles) })) ∧
    (findCustomerExact db f.customer_name f.customer_email f.customer_phone = none →
     countOwned db v.owner_id ≠ 1 →
       edit_vehicle today (some fid) vid db f =
         (EditResult.success,
          { db with
              customers := db.customers ++
                [{ id := db.next_customer_id, name := f.customer_name,
                   email := f.customer_email, phone := f.customer_phone }],
              next_customer_id := db.next_customer_id + 1,
              vehicles :=
                (updateFirst (fun w => w.id == vid)
                  (fun _ => applyVehicleFields v f db.next_customer_id) db.vehicles) }) ∧
       c ∈ (edit_vehicle today (some fid) vid db f).2.customers) := by
  have hcid : c.id = v.owner_id := by
    have h := List.find?_some hc
    simpa using h
  have hcmem : c ∈ db.customers := List.mem_of_find?_eq_some hc
  have hbase := edit_vehicle_success_eq today fid vid db f v c hv hfr herr hc
  rw [if_pos hch] at hbase
  refine ⟨?_, ?_, ?_, ?_⟩
  · rw [hbase]
  · intro ec hec
    have hrec : editReconcile db c f = (ec.id, db) := by
      unfold editReconcile
      rw [hec]
    rw [hbase, hrec]
  · intro hec hcount
    have hcount1 : countOwned db c.id = 1 := by
      rw [hcid]
      exact hcount
    have hrec : editReconcile db c f =
        (c.id,
         { db with customers :=
             (updateFirst (fun x => x.id == c.id)
               (fun x => { x with name := f.customer_name, email := f.customer_email,
                                  phone := f.customer_phone }) db.customers) }) := by
      unfold editReconcile
      rw [hec]
      dsimp only
      rw [if_pos hcount1]
    rw [hbase, hrec, hcid]
  · intro hec hcount
    have hcount1 : countOwned db c.id ≠ 1 := by
      rw [hcid]
      exact hcount
    have hrec : editReconcile db c f =
        (db.next_customer_id,
         { db with
             customers := db.customers ++
               [{ id := db.next_customer_id, name := f.customer_name,
                  email := f.customer_email, phone := f.customer_phone }],
             next_customer_id := db.next_customer_id + 1 }) := by
      unfold editReconcile
      rw [hec]
      dsimp only
      rw [if_neg hcount1]
    constructor
    · rw [hbase, hrec]
    · rw [hbase, hrec]
      exact List.mem_append_left _ hcmem

/-- C2, witness: editing the only vehicle of `cW2` to a fresh owner triple
takes the in-place-rename branch and succeeds. -/
theorem c2_edit_reconciliation_witness :
    customerChanged cW2 fW2 = true ∧
    countOwned dbW2 vW2.owner_id = 1 ∧
    (edit_vehicle 738805 (some 7) 1 dbW2 fW2).1 = EditResult.success :=
  ⟨by decide, by decide,
   (c2_edit_reconciliation 738805 7 1 dbW2 fW2 vW2 cW2 (by decide) (by decide)
      (by decide) (by decide) (by decide)).1⟩

/-- C4: when any validation rule fails, the register and edit handlers
leave the store untouched, echo the submitted values back, and report the
concatenation of every rule's messages; every failure produced by any
single rule is present in the reported list, so validation does not
short-circuit. -/
theorem c4_rejection_reports_all_and_mutates_nothing :
    (∀ today fid db f, registerErrors today db f ≠ [] →
       register_vehicle today fid db f =
         (RegResult.rejected (registerErrors today db f) f, db) ∧
       (∀ e, (e ∈ requiredErrors f ∨ e ∈ emailErrors f ∨ e ∈ phoneErrors f ∨
              e ∈ regNoErrors db f ∨ e ∈ vehicleNoErrors db f ∨ e ∈ dateErrors today f ∨
              e ∈ identityErrors db f) → e ∈ registerErrors today db f)) ∧
    (∀ today fid vid db f v, findVehicleById db vid = some v → v.franchise_id = fid →
       editErrors today db v f ≠ [] →
       edit_vehicle today (some fid) vid db f =
         (EditResult.rejected (editErrors today db v f) f, db) ∧
       (∀ e, (e ∈ requiredErrors f ∨ e ∈ emailErrors f ∨ e ∈ phoneErrors f ∨
              e ∈ editVehicleNoErrors db v f ∨ e ∈ editRegNoErrors db v f ∨
              e ∈ editIdentityErrors db v f ∨ e ∈ editDateErrors today f) →
          e ∈ editErrors today db v f)) := by
  constructor
  · intro today fid db f h
    refine ⟨register_rejected_of_errors today fid db f h, ?_⟩
    intro e he
    simp only [registerErrors, List.mem_append]
    tauto
  · intro today fid vid db f v hv hfr herr
    refine ⟨edit_vehicle_rejected_eq today fid vid db f v hv hfr herr, ?_⟩
    intro e he
    simp only [editErrors, List.mem_append]
    tauto

/-- C4, witness: the blank submission is rejected with the store unchanged
and its own field values echoed. -/
theorem c4_rejection_witness :
    registerErrors 0 dbEmpty formBlank ≠ [] ∧
    register_vehicle 0 7 dbEmpty formBlank =
      (RegResult.rejected (registerErrors 0 dbEmpty formBlank) formBlank, dbEmpty) :=
  ⟨by decide,
   (c4_rejection_reports_all_and_mutates_nothing.1 0 7 dbEmpty formBlank (by decide)).1⟩

/-- C5, counterexample: the claim demands rejection whenever the submitted
email belongs to any stored customer with a different name.  In `dbShared`
the email belongs to Bob (different name), yet the pre-check consults only
the first matching row, which here is Alice with the very submitted name,
so the registration succeeds and writes to the store. -/
theorem c5_counterexample :
    (∃ c ∈ dbShared.customers, c.email = formShared.customer_email ∧
       pyLower c.name ≠ pyLower formShared.customer_name) ∧
    (register_vehicle 738805 7 dbShared formShared).1 = RegResult.success ∧
    (register_vehicle 738805 7 dbShared formShared).2 ≠ dbShared := by decide

/-- C5, amended: for a registration with nonblank name, email and phone,
when the earliest-stored customer carrying the submitted email has a name
differing case-insensitively from the submitted one, the request is
rejected with the email different-name error and nothing is written;
symmetrically for the earliest-stored customer carrying the submitted
phone. -/
theorem c5_first_match_different_name :
    (∀ today fid db f c,
       f.customer_name ≠ "" → f.customer_email ≠ "" → f.customer_phone ≠ "" →
       findCustomerByEmail db f.customer_email = some c →
       pyLower c.name ≠ pyLower f.customer_name →
       "Check the details properly - Email is registered with a different name" ∈
         registerErrors today db f ∧
       register_vehicle today fid db f =
         (RegResult.rejected (registerErrors today db f) f, db)) ∧
    (∀ today fid db f c,
       f.customer_name ≠ "" → f.customer_email ≠ "" → f.customer_phone ≠ "" →
       findCustomerByPhone db f.customer_phone = some c →
       pyLower c.name ≠ pyLower f.customer_name →
       "Check the details properly - Phone is registered with a different name" ∈
         registerErrors today db f ∧
       register_vehicle today fid db f =
         (RegResult.rejected (registerErrors today db f) f, db)) := by
  constructor
  · intro today fid db f c hn he hp hfind hdiff
    have hmem : "Check the details properly - Email is registered with a different name" ∈
        identityErrors db f := by
      unfold identityErrors
      rw [if_pos ⟨he, hp, hn⟩]
      refine List.mem_append_left _ ?_
      rw [hfind]
      simp [hdiff]
    have hmem2 : "Check the details properly - Email is registered with a different name" ∈
        registerErrors today db f := by
      simp only [registerErrors, List.mem_append]
      tauto
    exact ⟨hmem2, register_rejected_of_errors _ _ _ _ (List.ne_nil_of_mem hmem2)⟩
  · intro today fid db f c hn he hp hfind hdiff
    have hmem : "Check the details properly - Phone is registered with a different name" ∈
        identityErrors db f := by
      unfold identityErrors
      rw [if_pos ⟨he, hp, hn⟩]
      refine List.mem_append_right _ ?_
      rw [hfind]
      simp [hdiff]
    have hmem2 : "Check the details properly - Phone is registered with a different name" ∈
        registerErrors today db f := by
      simp only [registerErrors, List.mem_append]
      tauto
    exact ⟨hmem2, register_rejected_of_errors _ _ _ _ (List.ne_nil_of_mem hmem2)⟩

/-- C5, witness: submitting the shared email under the unknown name Carol
is rejected with the email different-name error. -/
theorem c5_first_match_witness :
    pyLower "Alice" ≠ pyLower "Carol" ∧
    "Check the details properly - Email is registered with a different name" ∈
      registerErrors 738805 dbShared formSharedCarol :=
  ⟨by decide,
   (c5_first_match_different_name.1 738805 7 dbShared formSharedCarol
      { id := 1, name := "Alice", email := "shared@mail.com", phone := "5550001" }
      (by decide) (by decide) (by decide) (by decide) (by decide)).1⟩

/-- C6: a successful registration stores the normalized registration
number, and any second registration whose submitted registration number
normalizes to the same string is rejected as a duplicate with the store
unchanged. -/
theorem c6_duplicate_normalized_registration
    (t1 t2 : Int) (fid1 fid2 : Nat) (db : DB) (f1 f2 : RegForm)
    (h1 : registerErrors t1 db f1 = [])
    (h2 : f2.registration_number ≠ "")
    (hn : normalize_id f2.registration_number = normalize_id f1.registration_number) :
    (register_vehicle t1 fid1 db f1).1 = RegResult.success ∧
    (∃ w ∈ (register_vehicle t1 fid1 db f1).2.vehicles,
       w.registration_number = normalize_id f1.registration_number) ∧
    "Registration Number already exists!" ∈
      registerErrors t2 (register_vehicle t1 fid1 db f1).2 f2 ∧
    register_vehicle t2 fid2 (register_vehicle t1 fid1 db f1).2 f2 =
      (RegResult.rejected (registerErrors t2 (register_vehicle t1 fid1 db f1).2 f2) f2,
       (register_vehicle t1 fid1 db f1).2) := by
  have hsucc := register_success_of_no_errors t1 fid1 db f1 h1
  obtain ⟨w, hw1, hw2⟩ := registerCommit_vehicles fid1 db f1
  have hwmem : w ∈ (registerCommit fid1 db f1).vehicles := by
    rw [hw1]
    exact List.mem_append_right _ (List.mem_singleton_self _)
  have hfind : (findVehicleByReg (registerCommit fid1 db f1)
      (normalize_id f2.registration_number)).isSome := by
    unfold findVehicleByReg
    refine find?_isSome_of_mem hwmem ?_
    rw [hn]
    simp [hw2]
  have hregno : regNoErrors (registerCommit fid1 db f1) f2 =
      ["Registration Number already exists!"] := by
    unfold regNoErrors
    rw [if_pos h2, if_pos hfind]
  have hmem : "Registration Number already exists!" ∈
      registerErrors t2 (registerCommit fid1 db f1) f2 := by
    have hx : "Registration Number already exists!" ∈ regNoErrors (registerCommit fid1 db f1) f2 := by
      rw [hregno]
      exact List.mem_singleton_self _
    simp only [registerErrors, List.mem_append]
    tauto
  rw [hsucc]
  exact ⟨rfl, ⟨w, hwmem, hw2⟩, hmem,
    register_rejected_of_errors _ _ _ _ (List.ne_nil_of_mem hmem)⟩

/-- C6, witness: "KA01AB1234" followed by "ka 01 ab 1234". -/
theorem c6_duplicate_witness :
    normalize_id "ka 01 ab 1234" = normalize_id "KA01AB1234" ∧
    "Registration Number already exists!" ∈
      registerErrors 738805 (register_vehicle 738805 7 dbEmpty formC1).2 formC6b :=
  ⟨by decide,
   (c6_duplicate_normalized_registration 738805 738805 7 7 dbEmpty formC1 formC6b
      (by decide) (by decide) (by decide)).2.2.1⟩

/-- C7: for any submission, an issue date one day after today is rejected
with the future-date error, one of today minus 7301 days is rejected with
the too-old error, and one of exactly today minus 7300 days produces no
date error; a submission passing every other rule with that boundary date
is accepted and committed. -/
theorem c7_issue_date_boundaries :
    (∀ today fid db f, f.issue_date.raw ≠ "" → f.issue_date.parsed = some (today + 1) →
       "Issue date cannot be in the future!" ∈ registerErrors today db f ∧
       register_vehicle today fid db f =
         (RegResult.rejected (registerErrors today db f) f, db)) ∧
    (∀ today fid db f, f.issue_date.raw ≠ "" → f.issue_date.parsed = some (today - 7301) →
       "Issue date cannot be more than 20 years old!" ∈ registerErrors today db f ∧
       register_vehicle today fid db f =
         (RegResult.rejected (registerErrors today db f) f, db)) ∧
    (∀ today f, f.issue_date.parsed = some (today - 7300) → dateErrors today f = []) ∧
    (∀ today fid db f, f.issue_date.parsed = some (today - 7300) →
       requiredErrors f = [] → emailErrors f = [] → phoneErrors f = [] →
       regNoErrors db f = [] → vehicleNoErrors db f = [] → identityErrors db f = [] →
       register_vehicle today fid db f = (RegResult.success, registerCommit fid db f)) := by
  refine ⟨?_, ?_, ?_, ?_⟩
  · intro today fid db f hr hp
    have hmem : "Issue date cannot be in the future!" ∈ dateErrors today f := by
      unfold dateErrors
      rw [if_pos hr, hp]
      have h1 : today + 1 > today := by omega
      simp [h1]
    have hmem2 : "Issue date cannot be in the future!" ∈ registerErrors today db f := by
      simp only [registerErrors, List.mem_append]
      tauto
    exact ⟨hmem2, register_rejected_of_errors _ _ _ _ (List.ne_nil_of_mem hmem2)⟩
  · intro today fid db f hr hp
    have hmem : "Issue date cannot be more than 20 years old!" ∈ dateErrors today f := by
      unfold dateErrors
      rw [if_pos hr, hp]
      have h1 : ¬ (today - 7301 > today) := by omega
      have h2 : today - 7301 < today - 7300 := by omega
      simp [h1, h2]
    have hmem2 : "Issue date cannot be more than 20 years old!" ∈ registerErrors today db f := by
      simp only [registerErrors, List.mem_append]
      tauto
    exact ⟨hmem2, register_rejected_of_errors _ _ _ _ (List.ne_nil_of_mem hmem2)⟩
  · intro today f hp
    exact dateErrors_boundary_ok today f hp
  · intro today fid db f hp h1 h2 h3 h4 h5 h6
    have hd := dateErrors_boundary_ok today f hp
    have hz : registerErrors today db f = [] := by
      simp [registerErrors, h1, h2, h3, h4, h5, h6, hd]
    exact register_success_of_no_errors _ _ _ _ hz

/-- C7, witness: the three boundary dates against the reference day 738805. -/
theorem c7_issue_date_witness :
    "Issue date cannot be in the future!" ∈ registerErrors 738805 dbEmpty formC7a ∧
    "Issue date cannot be more than 20 years old!" ∈ registerErrors 738805 dbEmpty formC7b ∧
    dateErrors 738805 formC7c = [] ∧
    register_vehicle 738805 7 dbEmpty formC7c = (RegResult.success, registerCommit 7 dbEmpty formC7c) :=
  ⟨(c7_issue_date_boundaries.1 738805 7 dbEmpty formC7a (by decide) (by decide)).1,
   (c7_issue_date_boundaries.2.1 738805 7 dbEmpty formC7b (by decide) (by decide)).1,
   c7_issue_date_boundaries.2.2.1 738805 formC7c (by decide),
   c7_issue_date_boundaries.2.2.2 738805 7 dbEmpty formC7c (by decide) (by decide)
     (by decide) (by decide) (by decide) (by decide) (by decide)⟩

/-- C9: an edit or delete with no franchise in the session, or against a
vehicle of another franchise, is refused with the store untouched; and no
handler ever mutates or deletes a vehicle row belonging to a franchise
other than the session's (the register handler preserves every stored
vehicle row outright). -/
theorem c9_franchise_isolation :
    (∀ today vid db f, edit_vehicle today none vid db f = (EditResult.notLoggedIn, db)) ∧
    (∀ today fid vid db f v, findVehicleById db vid = some v → v.franchise_id ≠ fid →
       edit_vehicle today (some fid) vid db f = (EditResult.noPermission, db)) ∧
    (∀ vid db, delete_vehicle none vid db = (DelResult.notLoggedIn, db)) ∧
    (∀ fid vid db v, findVehicleById db vid = some v → v.franchise_id ≠ fid →
       delete_vehicle (some fid) vid db = (DelResult.noPermission, db)) ∧
    (∀ today fid vid db f w, w ∈ db.vehicles → w.franchise_id ≠ fid →
       w ∈ (edit_vehicle today (some fid) vid db f).2.vehicles) ∧
    (∀ fid vid db w, w ∈ db.vehicles → w.franchise_id ≠ fid →
       w ∈ (delete_vehicle (some fid) vid db).2.vehicles) ∧
    (∀ today fid db f w, w ∈ db.vehicles → w ∈ (register_vehicle today fid db f).2.vehicles) := by
  refine ⟨?_, ?_, ?_, ?_, ?_, ?_, ?_⟩
  · intro today vid db f
    rfl
  · intro today fid vid db f v hv hne
    exact edit_vehicle_noPermission_eq today fid vid db f v hv hne
  · intro vid db
    rfl
  · intro fid vid db v hv hne
    exact delete_vehicle_noPermission_eq fid vid db v hv hne
  · intro today fid vid db f w hw hwf
    exact edit_vehicle_preserves_other_franchise today fid vid db f w hw hwf
  · intro fid vid db w hw hwf
    exact delete_vehicle_preserves_other_franchise fid vid db w hw hwf
  · intro today fid db f w hw
    exact register_vehicle_preserves_vehicles today fid db f w hw

/-- C9, witness: a session of franchise 8 cannot edit the vehicle of
franchise 7. -/
theorem c9_franchise_isolation_witness :
    findVehicleById dbW2 1 = some vW2 ∧ vW2.franchise_id ≠ 8 ∧
    edit_vehicle 738805 (some 8) 1 dbW2 fW2 = (EditResult.noPermission, dbW2) :=
  ⟨by decide, by decide,
   c9_franchise_isolation.2.1 738805 8 1 dbW2 fW2 vW2 (by decide) (by decide)⟩

/-- C10: the self-service lookup compares the submitted registration number
and phone by plain string equality.  Over a store whose registration
numbers are normalization fixed points, a submission that is not itself a
fixed point fails with the registration-number error even when its
normalization matches a stored vehicle; and a successful lookup forces the
vehicle found by exact registration-number match to be owned by the
customer found by exact phone match. -/
theorem c10_lookup_exact_match :
    (∀ db s p, s ≠ "" → p ≠ "" →
       (∀ v ∈ db.vehicles, normalize_id v.registration_number = v.registration_number) →
       (∃ v ∈ db.vehicles, v.registration_number = normalize_id s) →
       s ≠ normalize_id s →
       ∃ msgs, customer_lookup db s p = LookupResult.failed msgs ∧
         "Registration Number does not exist" ∈ msgs) ∧
    (∀ db s p v, customer_lookup db s p = LookupResult.found v →
       findVehicleByReg db s = some v ∧
       ∃ c, findCustomerByPhone db p = some c ∧ v.owner_id = c.id) := by
  constructor
  · intro db s p hs hp hfix hex hne
    have hnone : findVehicleByReg db s = none := by
      unfold findVehicleByReg
      rw [List.find?_eq_none]
      intro v hv
      simp only [beq_iff_eq]
      intro heq
      apply hne
      have hfx := hfix v hv
      rw [heq] at hfx
      exact hfx.symm
    cases hc : findCustomerByPhone db p with
    | none =>
      refine ⟨["Registration Number does not exist", "Registered Phone does not exist"],
        ?_, by simp⟩
      simp [customer_lookup, hnone, hc, hs, hp]
    | some c =>
      refine ⟨["Registration Number does not exist"], ?_, by simp⟩
      simp [customer_lookup, hnone, hc, hs, hp]
  · intro db s p v hfound
    unfold customer_lookup at hfound
    by_cases hsp : s = "" ∨ p = ""
    · rw [if_pos hsp] at hfound
      cases hfound
    · rw [if_neg hsp] at hfound
      cases hv : findVehicleByReg db s with
      | none =>
        rw [hv] at hfound
        cases hc : findCustomerByPhone db p <;> rw [hc] at hfound <;> simp at hfound
      | some v2 =>
        rw [hv] at hfound
        cases hc : findCustomerByPhone db p with
        | none =>
          rw [hc] at hfound
          simp at hfound
        | some c =>
          rw [hc] at hfound
          simp at hfound
          by_cases ho : v2.owner_id = c.id
          · rw [if_pos ho] at hfound
            injection hfound with h
            subst h
            exact ⟨rfl, c, rfl, ho⟩
          · rw [if_neg ho] at hfound
            exact (LookupResult.noConfusion hfound)

/-- C10, witness: the stored "KA01AB1234" is not found by the lookup
"ka 01 ab 1234" although the two normalize identically. -/
theorem c10_lookup_witness :
    customer_lookup dbW2 "ka 01 ab 1234" "5550123" =
      LookupResult.failed ["Registration Number does not exist"] ∧
    (∃ msgs, customer_lookup dbW2 "ka 01 ab 1234" "5550123" = LookupResult.failed msgs ∧
       "Registration Number does not exist" ∈ msgs) :=
  ⟨by decide,
   c10_lookup_exact_match.1 dbW2 "ka 01 ab 1234" "5550123" (by decide) (by decide)
     (by decide) (by decide) (by decide)⟩

end VehReg
